import Mathlib

/-!
Verification of the Tilemapper layout and composition pipeline.

This file gives a shallow embedding, in Lean, of the data model and the
algorithms of the Tilemapper repository (natural sorter, file walker,
layout engine, compositor), translated from the TypeScript source, and
proves (or refutes) the specification claims about them.

Conventions of the embedding:
* JavaScript numbers that the source only ever uses as non-negative
  integers (tile counts, pixel sizes, grid coordinates, angle values)
  are modelled as `Nat`.
* `T | null` / `T | undefined` values are modelled as `Option T`.
* Arrays are modelled as `List`; in-place mutation loops become
  structural recursion carrying the loop state.
* Image buffers and all raster I/O are external collaborators; only the
  data-level logic (counts, placements, sizes, error checks) is modelled.
-/

namespace Tilemapper

/-! ## Data model (src/filewalker.ts, src/layouts.ts) -/

/-- One discovered file, `PathInfo` from src/filewalker.ts. -/
structure PathInfo where
  /-- Absolute path. -/
  path : String
  /-- Absolute dirname. -/
  dirname : String
  /-- List of directories relative to the working directory
      (outermost first, as produced by `path.dirname(relative).split(sep)`). -/
  dirnames : List String
  /-- File name without last extension. -/
  basename : String
  /-- Extension string without period. -/
  extname : String
  /-- Lower-cased extension. -/
  extnameLower : String
  deriving Repr, DecidableEq

/-- One entry of `Layout.tiles` (src/layouts.ts). -/
structure Tile where
  name : String
  path : String
  /-- X position (coords, not pixels). -/
  x : Nat
  /-- Y position (coords, not pixels). -/
  y : Nat
  deriving Repr, DecidableEq

/-- Base layout (src/layouts.ts): the tileset grid is indexed `[y][x]`,
each cell a file path or null. -/
structure Layout where
  tileset : List (List (Option String))
  tiles : List Tile
  deriving Repr, DecidableEq

/-- One entry of `SequenceLayout.sequences`. -/
structure SequenceEntry where
  name : String
  row : Nat
  length : Nat
  deriving Repr, DecidableEq

/-- `SequenceLayout` (src/layouts.ts). -/
structure SequenceLayout where
  tileset : List (List (Option String))
  tiles : List Tile
  sequences : List SequenceEntry
  deriving Repr, DecidableEq

/-- One angle entry of an animation (src/layouts.ts). -/
structure AngleEntry where
  angle : Nat
  row : Nat
  length : Nat
  deriving Repr, DecidableEq

/-- One entry of `AnimationLayout.animations`. -/
structure AnimationEntry where
  name : String
  angles : List AngleEntry
  deriving Repr, DecidableEq

/-- `AnimationLayout` (src/layouts.ts). -/
structure AnimationLayout where
  tileset : List (List (Option String))
  tiles : List Tile
  animations : List AnimationEntry
  deriving Repr, DecidableEq

/-- Options for all layout functions (`LayoutOptions` and its extensions,
src/layouts.ts); optional fields of an optional options object. -/
structure LayoutOpts where
  longTileNames : Option Bool := none
  width : Option Nat := none
  longSequenceNames : Option Bool := none
  longAnimationNames : Option Bool := none
  deriving Repr, DecidableEq

/-- Tile name: `(longTileNames ? dirnames.join("/") + "/" : "") + basename`
(src/layouts.ts, used identically by all three layout functions). -/
def tileName (longTileNames : Bool) (p : PathInfo) : String :=
  (if longTileNames then String.intercalate "/" p.dirnames ++ "/" else "") ++ p.basename

/-! ## List layout (src/layouts.ts, layoutList) -/

/-- Tiles pushed for one row of `layoutList`: for each shifted path the
source records the pre-increment loop indices, so cell `(x, y)` gets the
tile entry `(x, y)`. -/
def listRowTiles (longTileNames : Bool) (y : Nat) : Nat → List PathInfo → List Tile
  | _, [] => []
  | x, p :: ps =>
    { name := tileName longTileNames p, path := p.path, x := x, y := y } ::
      listRowTiles longTileNames y (x + 1) ps

/-- One row of the `layoutList` tileset: the source assigns `row[x]` for
every `x < width`, filling cells past the input with `null`. -/
def listRowCells (width : Nat) (taken : List PathInfo) : List (Option String) :=
  taken.map (fun p => some p.path) ++ List.replicate (width - taken.length) none

/-- The do-while loop of `layoutList`.  `fuel` bounds the number of rows;
`inputs.length + 1` rows always suffice when `width ≥ 1` (for `width = 0`
and a non-empty input the JavaScript loop never terminates). -/
def layoutListGo (longTileNames : Bool) (width : Nat) :
    Nat → List PathInfo → Nat → List (List (Option String)) × List Tile
  | 0, _, _ => ([], [])
  | fuel + 1, ps, y =>
    let taken := ps.take width
    let rest := ps.drop width
    let row := listRowCells width taken
    let rowTiles := listRowTiles longTileNames y 0 taken
    if rest.isEmpty then ([row], rowTiles)
    else
      match layoutListGo longTileNames width fuel rest (y + 1) with
      | (ts, tl) => (row :: ts, rowTiles ++ tl)

/-- `layoutList` (src/layouts.ts): lay all inputs out left-to-right,
top-to-bottom in rows of `width` cells (default 64). -/
def layoutList (inputPathInfos : List PathInfo) (options : Option LayoutOpts) : Layout :=
  let longTileNames := ((options.bind (fun o => o.longTileNames)).getD false)
  let width := ((options.bind (fun o => o.width)).getD 64)
  match layoutListGo longTileNames width (inputPathInfos.length + 1) inputPathInfos 0 with
  | (tileset, tiles) => { tileset := tileset, tiles := tiles }

/-! ## Sequence layout (src/layouts.ts, layoutSequences) -/

/-- Tiles pushed for one row of `layoutSequences`.  The source runs
`tilesetRow[x++] = path; tiles.push({..., x, y})`, so each tile entry
records the post-increment values: cell `(x, y)` is listed as
`(x + 1, y + 1)`. -/
def seqRowTiles (longTileNames : Bool) (y : Nat) : Nat → List PathInfo → List Tile
  | _, [] => []
  | x, p :: ps =>
    { name := tileName longTileNames p, path := p.path, x := x + 1, y := y + 1 } ::
      seqRowTiles longTileNames y (x + 1) ps

/-- The outer do-while loop of `layoutSequences`: each row is the first
remaining path together with the following run of paths sharing its
`dirname` (the walker output being sorted, same-directory files are
contiguous). -/
def layoutSequencesGo (longTileNames longSequenceNames : Bool) :
    Nat → List PathInfo → Nat → List (List (Option String)) × List Tile × List SequenceEntry
  | _, [], _ => ([], [], [])
  | 0, _ :: _, _ => ([], [], [])
  | fuel + 1, p :: rest, y =>
    let run := rest.takeWhile (fun q => q.dirname == p.dirname)
    let rest2 := rest.dropWhile (fun q => q.dirname == p.dirname)
    let rowPaths := p :: run
    let row := rowPaths.map (fun q => some q.path)
    let rowTiles := seqRowTiles longTileNames y 0 rowPaths
    -- JS note: for an (unreachable via toPathInfo) empty `dirnames` the
    -- source would store `undefined` as the short sequence name.
    let seqEntry : SequenceEntry :=
      { name := if longSequenceNames then String.intercalate "/" p.dirnames
                else (p.dirnames.getLast?).getD ""
        row := y
        length := rowPaths.length }
    match layoutSequencesGo longTileNames longSequenceNames fuel rest2 (y + 1) with
    | (ts, tl, ss) => (row :: ts, rowTiles ++ tl, seqEntry :: ss)

/-- `layoutSequences` (src/layouts.ts): one row per run of consecutive
paths from the same directory.  Every outer iteration consumes at least
the row's first path, so `inputs.length` is always enough fuel. -/
def layoutSequences (inputPathInfos : List PathInfo) (options : Option LayoutOpts) :
    SequenceLayout :=
  let longTileNames := ((options.bind (fun o => o.longTileNames)).getD false)
  let longSequenceNames := ((options.bind (fun o => o.longSequenceNames)).getD false)
  match layoutSequencesGo longTileNames longSequenceNames inputPathInfos.length
      inputPathInfos 0 with
  | (tileset, tiles, sequences) =>
    { tileset := tileset, tiles := tiles, sequences := sequences }

/-! ## Natural sorter (src/smartsorter.ts) -/

/-- The `Direction` enum of src/smartsorter.ts as its ordinal values:
`Up = 0`, `Right = 1`, `Down = 2`, `Left = 3`. -/
def directionUp : Nat := 0
/-- `Direction.Right` ordinal. -/
def directionRight : Nat := 1
/-- `Direction.Down` ordinal. -/
def directionDown : Nat := 2
/-- `Direction.Left` ordinal. -/
def directionLeft : Nat := 3

/-- `asDirection` (src/smartsorter.ts): look a lower-cased word up in
`directionMap`; own properties only (the JS prototype chain is not
modelled; no direction word collides with `Object.prototype` members). -/
def asDirection (str : String) : Option Nat :=
  if str == "up" || str == "forward" || str == "top" || str == "north" || str == "front" then
    some directionUp
  else if str == "down" || str == "backward" || str == "bottom" || str == "south" || str == "back" then
    some directionDown
  else if str == "left" || str == "west" then some directionLeft
  else if str == "right" || str == "east" then some directionRight
  else none

/-- A string segment (`Segment` of src/smartsorter.ts), tagged with its
`SegmentType`.  The `Null` branch of `segmentize` is unreachable (every
regexp match has one non-empty group), but the enum member exists. -/
inductive Segment
  | word (s : String)
  | direction (d : Nat)
  | number (n : Nat)
  | separator (s : String)
  | nullSeg
  deriving Repr, DecidableEq

/-- `SegmentType` ordinal of a segment (`Word = 0`, `Direction = 1`,
`Number = 2`, `Separator = 3`, `Null = 4`). -/
def Segment.typeRank : Segment → Nat
  | .word _ => 0
  | .direction _ => 1
  | .number _ => 2
  | .separator _ => 3
  | .nullSeg => 4

/-- Character class of the first regexp alternative `[a-zA-z]+`: note the
lower-case `z` in `A-z`, so the class is the full code-point range 65..122
(letters plus the six punctuation characters between `Z` and `a`). -/
def isWordChar (c : Char) : Bool := 65 ≤ c.toNat && c.toNat ≤ 122

/-- Character class of the second alternative `[0-9]+`. -/
def isDigitChar (c : Char) : Bool := 48 ≤ c.toNat && c.toNat ≤ 57

/-- Membership in `[a-zA-Z0-9]`; the third alternative `[^a-zA-Z0-9]+`
matches runs of characters outside this class. -/
def isAlnumChar (c : Char) : Bool :=
  isDigitChar c || (65 ≤ c.toNat && c.toNat ≤ 90) || (97 ≤ c.toNat && c.toNat ≤ 122)

/-- Decimal value of a digit run (`Number(numberVal)` on a string of
ASCII digits; double-precision rounding of astronomically long runs is
not modelled). -/
def digitsToNat (cs : List Char) : Nat :=
  cs.foldl (fun acc c => acc * 10 + (c.toNat - 48)) 0

/-- Build the segment for one matched letter run (lower-cased first, then
looked up as a direction).  The source tests `if (directionVal)`, which
is false both for `null` and for `Direction.Up = 0`, so words of the Up
class stay `Word` segments. -/
def wordSegment (run : List Char) : Segment :=
  let strVal := String.mk (run.map Char.toLower)
  match asDirection strVal with
  | some d => if d ≠ 0 then Segment.direction d else Segment.word strVal
  | none => Segment.word strVal

/-- The scanning loop of `segmentize` (src/smartsorter.ts): at each
position the regexp alternatives are tried in order (letter run, digit
run, non-alphanumeric run); every character belongs to some alternative,
so the matches partition the string. -/
def segmentizeGo : Nat → List Char → List Segment
  | _, [] => []
  | 0, _ :: _ => []
  | fuel + 1, c :: cs =>
    if isWordChar c then
      wordSegment (c :: cs.takeWhile isWordChar) :: segmentizeGo fuel (cs.dropWhile isWordChar)
    else if isDigitChar c then
      Segment.number (digitsToNat (c :: cs.takeWhile isDigitChar)) ::
        segmentizeGo fuel (cs.dropWhile isDigitChar)
    else
      Segment.separator (String.mk (c :: cs.takeWhile (fun d => !isAlnumChar d))) ::
        segmentizeGo fuel (cs.dropWhile (fun d => !isAlnumChar d))

/-- `segmentize` (src/smartsorter.ts).  Every match consumes at least one
character, so the string length is always enough fuel. -/
def segmentize (s : String) : List Segment := segmentizeGo s.data.length s.data

/-- JavaScript string comparison (`<` / `>` on strings): lexicographic on
code units; for the ASCII strings at hand identical to code points. -/
def strCmp : List Char → List Char → Int
  | [], [] => 0
  | [], _ :: _ => -1
  | _ :: _, [] => 1
  | c :: cs, d :: ds =>
    if c.toNat < d.toNat then -1
    else if d.toNat < c.toNat then 1
    else strCmp cs ds

/-- Three-way comparison of two natural numbers as `-1 | 0 | 1`. -/
def natCmp (a b : Nat) : Int := if a < b then -1 else if b < a then 1 else 0

/-- Value comparison inside `compareSegmentLists` for equal-typed Word,
Direction and Number segments (`aVal > bVal` / `aVal < bVal`);
separator and null segments compare only by type. -/
def segValueCmp : Segment → Segment → Int
  | .word a, .word b => strCmp a.data b.data
  | .direction a, .direction b => natCmp a b
  | .number a, .number b => natCmp a b
  | _, _ => 0

/-- `compareSegmentLists` (src/smartsorter.ts): positional comparison up
to the longer length; an exhausted list sorts first; differing types
order by type rank; equal Word/Direction/Number types order by value. -/
def compareSegmentLists : List Segment → List Segment → Int
  | [], [] => 0
  | [], _ :: _ => -1
  | _ :: _, [] => 1
  | sa :: as2, sb :: bs2 =>
    if sa.typeRank ≠ sb.typeRank then
      (if sa.typeRank > sb.typeRank then 1 else -1)
    else
      let v := segValueCmp sa sb
      if v ≠ 0 then v else compareSegmentLists as2 bs2

/-- `SmartSorter.compare` (src/smartsorter.ts) on strings.  The
per-instance segment-list cache only memoises `segmentize` and cannot
change results, so it is not modelled. -/
def smartCompare (a b : String) : Int :=
  compareSegmentLists (segmentize a) (segmentize b)

/-! ## JavaScript sort and object-key order helpers -/

/-- Stable insertion into a sorted list: the new element goes after every
element `b` with `le b a`, matching the stable `Array.prototype.sort` a
consistent comparator produces. -/
def stableInsert {α : Type} (le : α → α → Bool) (a : α) : List α → List α
  | [] => [a]
  | b :: bs => if le b a then b :: stableInsert le a bs else a :: b :: bs

/-- Stable sort by a boolean "less or equal" relation (the order that the
ECMAScript stable `Array.prototype.sort` produces for a consistent
comparator `c` with `le x y := c(x,y) ≤ 0`). -/
def stableSort {α : Type} (le : α → α → Bool) (l : List α) : List α :=
  l.foldl (fun acc a => stableInsert le a acc) []

/-- `SmartSorter.sortInPlace`.  The method itself is not in the sources
of this repository (callers in src/filewalker.ts and src/layouts.ts only);
modelled from the spec: sort with the Natural Sorter as comparator
(spec 4.2/4.3, "sorted via the Natural Sorter"). -/
def sortInPlace (l : List String) : List String :=
  stableSort (fun a b => smartCompare a b ≤ 0) l

/-- JavaScript string order (default `Array.prototype.sort` comparator
converts elements to strings and compares them by code units). -/
def strLe (a b : String) : Bool := strCmp a.data b.data ≤ 0

/-- Default (comparator-less) `Array.prototype.sort` on an array of
non-negative numbers: each element is converted to its decimal string
and the strings are compared lexicographically. -/
def jsDefaultNumSort (l : List Nat) : List Nat :=
  stableSort (fun a b => strLe (Nat.repr a) (Nat.repr b)) l

/-- Is this number's decimal string an ECMAScript array index
(canonical numeric string below `2^32 - 1`)?  All keys of the `angles`
object are of this form for angles below that bound. -/
def isArrayIndexNat (n : Nat) : Bool := n < 4294967295

/-- `Object.keys` order for an object whose keys were inserted in the
given order: array-index keys first in ascending numeric order, then the
remaining keys in insertion order. -/
def jsObjectKeysNat (ns : List Nat) : List Nat :=
  stableSort (fun a b => a ≤ b) (ns.filter isArrayIndexNat) ++
    ns.filter (fun n => !isArrayIndexNat n)

/-- Is a string an ECMAScript array-index key (canonical decimal numeral
below `2^32 - 1`)? -/
def isArrayIndexStr (s : String) : Bool :=
  s.length > 0 && s.data.all isDigitChar &&
    (s == "0" || s.data.head? != some '0') &&
    digitsToNat s.data < 4294967295

/-- `Object.keys` order for string keys inserted in the given order. -/
def jsObjectKeysStr (ss : List String) : List String :=
  stableSort (fun a b => digitsToNat a.data ≤ digitsToNat b.data) (ss.filter isArrayIndexStr) ++
    ss.filter (fun s => !isArrayIndexStr s)

/-! ## Animation layout (src/layouts.ts, layoutAnimations) -/

/-- `Number(str)` followed by the NaN check `angle === angle ? angle :
null` of src/layouts.ts line 253, for the directory-name strings this
code sees: a non-empty run of ASCII digits parses to its decimal value,
a string containing any other character is NaN (signed, fractional,
hexadecimal and whitespace-padded numerals do not occur as angle
directories in the claims under study and are not modelled). -/
def jsNumberNat (s : String) : Option Nat :=
  if s.length > 0 && s.data.all isDigitChar then some (digitsToNat s.data) else none

/-- One animation group of the intermediate `animationPaths` object:
the `name` fixed at creation and the `angles` sub-object as an
insertion-ordered association list from angle value to its paths. -/
structure AnimGroup where
  name : String
  angles : List (Nat × List PathInfo)
  deriving Repr, DecidableEq

/-- Append a path to an angle bucket of a group (`animationPath.angles`
update of src/layouts.ts lines 273-276), keeping insertion order. -/
def insertAnglePath (angles : List (Nat × List PathInfo)) (angle : Nat) (p : PathInfo) :
    List (Nat × List PathInfo) :=
  if angles.any (fun e => e.1 == angle) then
    angles.map (fun e => if e.1 == angle then (e.1, e.2 ++ [p]) else e)
  else angles ++ [(angle, [p])]

/-- The "populate animationPaths" loop of `layoutAnimations`
(src/layouts.ts lines 236-277): `dirnames.shift()` takes the FIRST
(outermost) segment as the angle directory, the remaining segments join
to the grouping key, and with short names a second `shift` takes the next
segment as the animation name; files failing any check are skipped with a
warning. -/
def animationPathsOf (longAnimationNames : Bool) :
    List PathInfo → List (String × AnimGroup) → List (String × AnimGroup)
  | [], acc => acc
  | p :: rest, acc =>
    match p.dirnames with
    | [] => animationPathsOf longAnimationNames rest acc
    | a :: ds =>
      -- `!angleDirname` is true for null and for the empty string
      if a == "" then animationPathsOf longAnimationNames rest acc
      else if ds.isEmpty then
        -- sequenceDirname === null: "invalid sequence name", skip
        animationPathsOf longAnimationNames rest acc
      else
        let seqDirname := String.intercalate "/" ds
        match jsNumberNat a,
            (if longAnimationNames then some seqDirname else ds.head?) with
        | some angle, some name =>
          let acc2 :=
            if acc.any (fun e => e.1 == seqDirname) then
              acc.map (fun e =>
                if e.1 == seqDirname then
                  (e.1, { e.2 with angles := insertAnglePath e.2.angles angle p })
                else e)
            else acc ++ [(seqDirname, { name := name, angles := [(angle, [p])] })]
          animationPathsOf longAnimationNames rest acc2
        | _, _ => animationPathsOf longAnimationNames rest acc

/-- Tiles pushed for one animation row (src/layouts.ts lines 301-311):
here the pre-increment loop index is recorded, so coordinates are the
actual zero-based cell coordinates. -/
def animRowTiles (longTileNames : Bool) (y : Nat) : Nat → List PathInfo → List Tile
  | _, [] => []
  | x, p :: ps =>
    { name := tileName longTileNames p, path := p.path, x := x, y := y } ::
      animRowTiles longTileNames y (x + 1) ps

/-- The inner per-angle loop of `layoutAnimations` (lines 292-315): each
angle key appends one tileset row at index `tileset.push([]) - 1`. -/
def animAngleRows (longTileNames : Bool) (angles : List (Nat × List PathInfo)) :
    List Nat → Nat → List (List (Option String)) × List Tile × List AngleEntry
  | [], _ => ([], [], [])
  | k :: ks, startRow =>
    let paths := (((angles.find? (fun e => e.1 == k)).map (fun e => e.2)).getD [])
    let row := paths.map (fun p => some p.path)
    let tl := animRowTiles longTileNames startRow 0 paths
    let ae : AngleEntry := { angle := k, row := startRow, length := paths.length }
    match animAngleRows longTileNames angles ks (startRow + 1) with
    | (rs, ts, aes) => (row :: rs, tl ++ ts, ae :: aes)

/-- The outer per-animation loop of `layoutAnimations` (lines 281-318).
The angle keys are `Object.keys(animationPath.angles).map(Number).sort()`:
object-key enumeration order re-sorted by the DEFAULT comparator, i.e.
lexicographically on the numbers' decimal strings. -/
def animGroups (longTileNames : Bool) (animationPaths : List (String × AnimGroup)) :
    List String → Nat → List (List (Option String)) × List Tile × List AnimationEntry
  | [], _ => ([], [], [])
  | d :: ds, startRow =>
    let g := (((animationPaths.find? (fun e => e.1 == d)).map (fun e => e.2)).getD
      { name := "", angles := [] })
    let angleKeys := jsDefaultNumSort (jsObjectKeysNat (g.angles.map (fun e => e.1)))
    match animAngleRows longTileNames g.angles angleKeys startRow with
    | (rs, ts, aes) =>
      match animGroups longTileNames animationPaths ds (startRow + rs.length) with
      | (rs2, ts2, ans) =>
        (rs ++ rs2, ts ++ ts2, { name := g.name, angles := aes } :: ans)

/-- `layoutAnimations` (src/layouts.ts): group files into animations and
angle rows.  Group keys are `Object.keys(animationPaths)` sorted with the
Natural Sorter; angle keys are sorted with the default comparator. -/
def layoutAnimations (inputPathInfos : List PathInfo) (options : Option LayoutOpts) :
    AnimationLayout :=
  let longTileNames := ((options.bind (fun o => o.longTileNames)).getD false)
  let longAnimationNames := ((options.bind (fun o => o.longAnimationNames)).getD false)
  let animationPaths := animationPathsOf longAnimationNames inputPathInfos []
  let dirnames := sortInPlace (jsObjectKeysStr (animationPaths.map (fun e => e.1)))
  match animGroups longTileNames animationPaths dirnames 0 with
  | (tileset, tiles, animations) =>
    { tileset := tileset, tiles := tiles, animations := animations }

/-! ## File walker (src/filewalker.ts) -/

/-- A filesystem subtree as seen by `walkPath`: a regular file (carrying
its full path), or a directory with its children.  Objects that are
neither (symlinks etc.) fall through both `stats` branches and contribute
nothing; they are not modelled. -/
inductive FSNode
  | file (path : String)
  | dir (path : String) (children : List FSNode)
  deriving Repr

/-- `path.extname` (Node) for ordinary file names: the suffix of the last
path component from its last `.`, empty when the component has no dot or
only a leading dot. -/
def extnameOf (p : String) : String :=
  let base := (((p.split (fun c => c = '/')).getLast?).getD "").data
  match (base.reverse.takeWhile (fun c => c ≠ '.')).length, base.length with
  | n, m =>
    if n + 1 < m then String.mk (base.drop (m - n - 1))
    else ""

/-- `.replace(/^\./, "")`: strip one leading period. -/
def stripDot (s : String) : String :=
  match s.data with
  | '.' :: cs => String.mk cs
  | _ => s

/-- JavaScript `String.prototype.toLowerCase` for ASCII data. -/
def jsToLower (s : String) : String := String.mk (s.data.map Char.toLower)

/-- `extensionsInclude` (src/filewalker.ts lines 49-61): no list accepts
everything; otherwise the file's extension, period stripped and
lower-cased, is compared against the list entries. -/
def extensionsInclude (extensions : Option (List String)) (filePath : String) : Bool :=
  match extensions with
  | none => true
  | some exts => exts.contains (jsToLower (stripDot (extnameOf filePath)))

mutual

/-- `walkPath` (src/filewalker.ts lines 62-109): a directory walks all
children (with `top = false`); a file is dropped when it is not top-level
and fails the extension check, and returned otherwise.  The concurrent
sub-walks are modelled in child order; `walkPaths` re-sorts the collected
paths afterwards, so only membership matters. -/
def walkPath (extensions : Option (List String)) (top : Bool) : FSNode → List String
  | .file p => if !top && !extensionsInclude extensions p then [] else [p]
  | .dir _ children => walkPathList extensions children

/-- Concatenation of the recursive walks of a directory's children. -/
def walkPathList (extensions : Option (List String)) : List FSNode → List String
  | [] => []
  | t :: ts => walkPath extensions false t ++ walkPathList extensions ts

end

mutual

/-- All regular-file paths of a subtree, in child order. -/
def filesIn : FSNode → List String
  | .file p => [p]
  | .dir _ children => filesInList children

/-- All regular-file paths under a list of subtrees. -/
def filesInList : List FSNode → List String
  | [] => []
  | t :: ts => filesIn t ++ filesInList ts

end

/-! ## Compositor (src/compositor.ts, final version; src/composite.ts) -/

/-- Output tilemap sizing information (`TilemapInfo`). -/
structure TilemapInfo where
  /-- Width of this tilemap image, in pixels. -/
  width : Nat
  /-- Height of this tilemap image, in pixels. -/
  height : Nat
  /-- Count of tiles on the X axis. -/
  countX : Nat
  /-- Count of tiles on the Y axis. -/
  countY : Nat
  /-- Width of a tile in pixels. -/
  tileWidth : Nat
  /-- Height of a tile in pixels. -/
  tileHeight : Nat
  deriving Repr, DecidableEq

/-- `OutputType` (src/compositor.ts). -/
inductive OutputType
  | png
  | jpeg
  | webp
  | tiff
  deriving Repr, DecidableEq

/-- The tile-count computation of `composite` (src/compositor.ts):
`countY = Math.floor(Math.max(0, minCountY ?? 0, inputFiles.length))` and
`countX` starts from `Math.floor(Math.max(0, minCountX ?? 0))` and is
raised to the longest row length.  With counts already natural numbers
the floor and the clamp at zero are identities. -/
def compositeCounts (inputFiles : List (List (Option String)))
    (minCountX minCountY : Nat) : Nat × Nat :=
  let countY := max minCountY inputFiles.length
  let countX := inputFiles.foldl (fun acc row => if row.length > acc then row.length else acc)
    minCountX
  (countX, countY)

/-- The `TilemapInfo` built by `composite` (src/compositor.ts lines
430-465): image dimensions are `width * countX` by `height * countY` and
the reported tile dimensions are the requested ones. -/
def compositeInfo (inputFiles : List (List (Option String)))
    (width height minCountX minCountY : Nat) : TilemapInfo :=
  match compositeCounts inputFiles minCountX minCountY with
  | (countX, countY) =>
    { width := width * countX
      height := height * countY
      countX := countX
      countY := countY
      tileWidth := width
      tileHeight := height }

/-- The overlay placement computed by `generateOverlay`
(src/compositor.ts lines 343-374): the returned overlay carries
`top: y * height, left: x * height` — the left offset multiplies the
column index by the tile HEIGHT.  Returns `(left, top)`. -/
def generateOverlayPlacement (_width height x y : Nat) : Nat × Nat :=
  (x * height, y * height)

/-- All tile placements `(path, left, top)` recorded by the overlay
generation loops of `composite` (src/compositor.ts lines 409-425), in
row-major generation order (the concurrent completions are joined before
use, so order carries no meaning beyond enumeration). -/
def compositeOverlays (inputFiles : List (List (Option String)))
    (width height minCountX minCountY : Nat) : List (String × Nat × Nat) :=
  match compositeCounts inputFiles minCountX minCountY with
  | (countX, countY) =>
    (List.range countY).flatMap (fun y =>
      match inputFiles[y]? with
      | none => []
      | some row =>
        (List.range countX).flatMap (fun x =>
          match (row.getD x none) with
          | none => []
          | some filePath =>
            match generateOverlayPlacement width height x y with
            | (left, top) => [(filePath, left, top)]))

/-- The final `composite` (src/compositor.ts lines 376-465) at the data
level: it validates nothing (its only `throw` is the unreachable default
of the exhaustive output-type switch) and resolves to the data buffer
plus the `TilemapInfo`; raster work is delegated to the external image
library and is not modelled. -/
def composite (inputFiles : List (List (Option String))) (outputType : OutputType)
    (width height minCountX minCountY : Nat) : Except String TilemapInfo :=
  match outputType with
  | _ => Except.ok (compositeInfo inputFiles width height minCountX minCountY)

/-- A frame sequence (`Sequence`, src/sequence.ts); image buffers are
opaque. -/
structure Sequence (Buffer : Type) where
  name : String
  images : List Buffer

/-- `sequenceListLength` (src/sequence.ts). -/
def sequenceListLength {Buffer : Type} (sequences : List (Sequence Buffer)) : Nat :=
  sequences.length

/-- `maximumSequenceImageCount` (src/sequence.ts). -/
def maximumSequenceImageCount {Buffer : Type} (sequences : List (Sequence Buffer)) : Nat :=
  sequences.foldl (fun acc s => if acc < s.images.length then s.images.length else acc) 0

/-- `CompositeOptions` (src/composite.ts). -/
structure CompositeOptions where
  tileWidth : Nat
  tileHeight : Nat
  minTileCountX : Nat
  minTileCountY : Nat
  tileFit : String
  tileKernel : String

/-- The tile-count computation and zero-tile check of
`compositeSequences` (src/composite.ts lines 96-104): the effective
counts are the maxima of the measured counts and the configured
minimums, and a tilemap of less than one tile on either axis is an
error. -/
def compositeSequencesCounts {Buffer : Type} (sequences : List (Sequence Buffer))
    (options : CompositeOptions) : Except String (Nat × Nat) :=
  let tileCountX := max (maximumSequenceImageCount sequences) options.minTileCountX
  let tileCountY := max (sequenceListLength sequences) options.minTileCountY
  if tileCountX < 1 || tileCountY < 1 then
    Except.error "Using current settings, tilemap would contain 0 tiles"
  else Except.ok (tileCountX, tileCountY)

/-! ## Concrete inputs used by the claim theorems -/

/-- A single walked file `d/f.png` (fields as `toPathInfo` produces). -/
def onePathD : PathInfo :=
  { path := "/work/d/f.png", dirname := "/work/d", dirnames := ["d"], basename := "f",
    extname := "png", extnameLower := "png" }

/-- Walked file `90/walk/f1.png`. -/
def path90walk : PathInfo :=
  { path := "/work/90/walk/f1.png", dirname := "/work/90/walk", dirnames := ["90", "walk"],
    basename := "f1", extname := "png", extnameLower := "png" }

/-- Walked file `180/walk/f1.png`. -/
def path180walk : PathInfo :=
  { path := "/work/180/walk/f1.png", dirname := "/work/180/walk", dirnames := ["180", "walk"],
    basename := "f1", extname := "png", extnameLower := "png" }

/-- Walked file `anim1/90/frame1.png` — the animation directory layout
documented in the `layoutAnimations` doc comment (animation name above,
angle directory innermost). -/
def pathAnim1Deg90 : PathInfo :=
  { path := "/work/anim1/90/frame1.png", dirname := "/work/anim1/90",
    dirnames := ["anim1", "90"], basename := "frame1",
    extname := "png", extnameLower := "png" }

/-- Walked file `90/anim1/frame1.png` — the same name material with the
angle directory outermost. -/
def pathDeg90Anim1 : PathInfo :=
  { path := "/work/90/anim1/frame1.png", dirname := "/work/90/anim1",
    dirnames := ["90", "anim1"], basename := "frame1",
    extname := "png", extnameLower := "png" }

/-- A helper for lists of files in one directory `d`. -/
def mkDPath (b : String) : PathInfo :=
  { path := "/work/d/" ++ b ++ ".png", dirname := "/work/d", dirnames := ["d"], basename := b,
    extname := "png", extnameLower := "png" }

/-- Ten walked files in one directory. -/
def tenPaths : List PathInfo :=
  [mkDPath "f0", mkDPath "f1", mkDPath "f2", mkDPath "f3", mkDPath "f4",
   mkDPath "f5", mkDPath "f6", mkDPath "f7", mkDPath "f8", mkDPath "f9"]

/-! ## Supporting lemmas -/

mutual

/-- Non-top-level walks keep exactly the files passing the extension
check, in order. -/
theorem walkPath_eq_filter (exts : Option (List String)) (t : FSNode) :
    walkPath exts false t = (filesIn t).filter (extensionsInclude exts) := by
  cases t with
  | file p =>
    simp only [walkPath, filesIn, List.filter]
    cases h : extensionsInclude exts p <;> simp [h]
  | dir name children =>
    simp only [walkPath, filesIn]
    exact walkPathList_eq_filter exts children

/-- List version of `walkPath_eq_filter`. -/
theorem walkPathList_eq_filter (exts : Option (List String)) (ts : List FSNode) :
    walkPathList exts ts = (filesInList ts).filter (extensionsInclude exts) := by
  cases ts with
  | nil => simp [walkPathList, filesInList]
  | cons t ts2 =>
    simp only [walkPathList, filesInList, List.filter_append]
    rw [walkPath_eq_filter exts t, walkPathList_eq_filter exts ts2]

end

/-! ## Claim theorems -/

/-- Claim C1 (code bug): the tiles/tileset round-trip invariant FAILS for
`layoutSequences`.  For a single input file the only occupied tileset
cell is `(x, y) = (0, 0)`, but the single `tiles` entry records
`(1, 1)`: the source pushes the tile after `tilesetRow[x++]` and after
`tileset[y++]` have both incremented, so every sequence-layout tile is
listed one cell right of and one cell below the cell that holds it.
(`layoutList` and `layoutAnimations` record the pre-increment indices.) -/
theorem layoutSequences_tile_coords_off_by_one :
    (layoutSequences [onePathD] none).tileset = [[some "/work/d/f.png"]] ∧
    (layoutSequences [onePathD] none).tiles.map (fun t => (t.x, t.y)) = [(1, 1)] := by
  constructor <;> rfl

/-- Claim C2 (code bug): `generateOverlay` records the placement
`left = x * height`, not `x * width`.  With tile width 128 and height
64, the tile in column 1 of the single row is recorded at horizontal
offset 64 (= 1 × tileHeight) instead of 128 (= 1 × tileWidth). -/
theorem generateOverlay_left_offset_uses_height :
    compositeOverlays [[some "a", some "b"]] 128 64 0 0 = [("a", 0, 0), ("b", 64, 0)] ∧
    generateOverlayPlacement 128 64 1 0 = (64, 0) ∧ (64 : Nat) ≠ 1 * 128 := by
  refine ⟨rfl, rfl, by decide⟩

/-- Claim C3 (code bug): angle entries are NOT numerically ascending.
`Object.keys(...).map(Number).sort()` sorts with the default comparator,
i.e. lexicographically on decimal strings, so an animation with angles
90 and 180 lists them as 180, 90 (the string "180" sorts before "90"). -/
theorem layoutAnimations_angles_sorted_lexicographically :
    ((layoutAnimations [path90walk, path180walk] none).animations.map
      (fun a => a.angles.map (fun e => e.angle))) = [[180, 90]] ∧
    ¬ (180 : Nat) ≤ 90 := by
  refine ⟨rfl, by decide⟩

/-- Claim C4 (code bug): `layoutAnimations` takes the angle from the
OUTERMOST directory segment (`dirnames.shift()` removes the first
element), not the innermost one.  The layout documented in the source
(`anim1/90/frame1.png`, angle innermost) is rejected — `Number("anim1")`
is NaN, the file is warned about and skipped, and the result is empty —
while the reversed layout `90/anim1/frame1.png` is accepted with angle
90 and animation name `anim1` drawn from the segments BELOW the angle. -/
theorem layoutAnimations_angle_taken_from_outermost_segment :
    layoutAnimations [pathAnim1Deg90] none =
      { tileset := [], tiles := [], animations := [] } ∧
    (layoutAnimations [pathDeg90Anim1] none).animations =
      [{ name := "anim1", angles := [{ angle := 90, row := 0, length := 1 }] }] := by
  constructor <;> rfl

/-- Claim C5 (counterexample): the final `composite` does NOT fail on an
effective tile count of zero; on an empty grid with zero minimums it
resolves successfully with a 0×0 `TilemapInfo`. -/
theorem composite_accepts_empty_grid :
    composite [] OutputType.png 128 128 0 0 =
      Except.ok { width := 0, height := 0, countX := 0, countY := 0,
                  tileWidth := 128, tileHeight := 128 } := by
  rfl

/-- Claim C5 (amended): `compositeSequences` (src/composite.ts) succeeds
exactly when both effective tile counts — the maxima of the measured
counts and the configured minimums — are at least 1, and errors
otherwise; the final `composite` (src/compositor.ts) performs no such
check and resolves successfully with zero-size dimensions on an empty
grid with zero minimums. -/
theorem compositeSequences_rejects_zero_tiles :
    (∀ (β : Type) (seqs : List (Sequence β)) (opts : CompositeOptions),
      (compositeSequencesCounts seqs opts).isOk = true ↔
        1 ≤ max (maximumSequenceImageCount seqs) opts.minTileCountX ∧
        1 ≤ max (sequenceListLength seqs) opts.minTileCountY) ∧
    (∀ w h : Nat, composite [] OutputType.png w h 0 0 =
      Except.ok { width := 0, height := 0, countX := 0, countY := 0,
                  tileWidth := w, tileHeight := h }) := by
  constructor
  · intro β seqs opts
    simp only [compositeSequencesCounts]
    by_cases hx : max (maximumSequenceImageCount seqs) opts.minTileCountX < 1 <;>
      by_cases hy : max (sequenceListLength seqs) opts.minTileCountY < 1 <;>
        simp [hx, hy, Except.isOk, Except.toBool] <;> omega
  · intro w h
    simp [composite, compositeInfo, compositeCounts]

/-- Claim C6 (counterexample): for ten input files and row width 4 the
grid does NOT have row lengths `[4, 4, 2]` — `layoutList` assigns a cell
for every `x < width`, so the last row is padded with nulls to length 4. -/
theorem layoutList_ten_files_rows_not_ragged :
    ¬ ((layoutList tenPaths (some { width := some 4 })).tileset.map List.length
        = [4, 4, 2]) := by
  decide

/-- Claim C6 (amended): for any ten input files and row width 4 the grid
has exactly three rows, each of JavaScript array length 4; the first two
rows are fully occupied and the third holds the last two files followed
by two null cells; `tiles` has exactly ten entries, the i-th input file
at `x = i mod 4`, `y = i div 4`, in input order. -/
theorem layoutList_ten_files_layout
    (p0 p1 p2 p3 p4 p5 p6 p7 p8 p9 : PathInfo) :
    (layoutList [p0, p1, p2, p3, p4, p5, p6, p7, p8, p9]
        (some { width := some 4 })).tileset.map List.length = [4, 4, 4] ∧
    (layoutList [p0, p1, p2, p3, p4, p5, p6, p7, p8, p9]
        (some { width := some 4 })).tileset.map (List.map Option.isSome) =
      [[true, true, true, true], [true, true, true, true], [true, true, false, false]] ∧
    (layoutList [p0, p1, p2, p3, p4, p5, p6, p7, p8, p9]
        (some { width := some 4 })).tiles.length = 10 ∧
    (layoutList [p0, p1, p2, p3, p4, p5, p6, p7, p8, p9]
        (some { width := some 4 })).tiles.map (fun t => (t.x, t.y)) =
      [(0, 0), (1, 0), (2, 0), (3, 0), (0, 1), (1, 1), (2, 1), (3, 1), (0, 2), (1, 2)] ∧
    (layoutList [p0, p1, p2, p3, p4, p5, p6, p7, p8, p9]
        (some { width := some 4 })).tiles.map (fun t => t.path) =
      [p0.path, p1.path, p2.path, p3.path, p4.path,
       p5.path, p6.path, p7.path, p8.path, p9.path] := by
  refine ⟨rfl, rfl, rfl, rfl, rfl⟩

/-- Claim C7 (code bug): words of the Up direction class are NOT tagged
as Direction segments.  `Direction.Up = 0` is falsy, so
`if (directionVal)` rejects it and `segmentize` leaves "up", "north",
"top", "forward" and "front" as Word segments; "north.png" then compares
BELOW "up.png" as plain words (-1, not 0).  The other classes do get
tagged (e.g. "right" becomes Direction 1, and "down.png" does compare
equal to "south.png"). -/
theorem direction_up_words_not_tagged :
    smartCompare "north.png" "up.png" = -1 ∧
    (segmentize "up.png").head? = some (Segment.word "up") ∧
    (segmentize "north.png").head? = some (Segment.word "north") ∧
    (segmentize "right.png").head? = some (Segment.direction 1) ∧
    smartCompare "down.png" "south.png" = 0 := by
  refine ⟨by decide, rfl, rfl, rfl, by decide⟩

/-- Claim C8 (confirmed): every successful run of the final `composite`
returns a `TilemapInfo` with `width = tileWidth * countX` and
`height = tileHeight * countY` exactly. -/
theorem composite_info_size_invariant
    (inputFiles : List (List (Option String))) (ot : OutputType)
    (w h mx my : Nat) (info : TilemapInfo)
    (hok : composite inputFiles ot w h mx my = Except.ok info) :
    info.width = info.tileWidth * info.countX ∧
    info.height = info.tileHeight * info.countY := by
  have : info = compositeInfo inputFiles w h mx my := by
    cases ot <;> simpa [composite] using hok.symm
  subst this
  constructor <;> rfl

/-- Witness for `composite_info_size_invariant` at a concrete 1×1 grid
with asymmetric tile dimensions. -/
theorem composite_info_size_invariant_witness :
    (composite [[some "a"]] OutputType.png 128 64 0 0 =
      Except.ok { width := 128, height := 64, countX := 1, countY := 1,
                  tileWidth := 128, tileHeight := 64 }) ∧
    ((128 : Nat) = 128 * 1 ∧ (64 : Nat) = 64 * 1) := by
  refine ⟨rfl, ?_⟩
  exact composite_info_size_invariant [[some "a"]] OutputType.png 128 64 0 0 _ rfl

/-- Claim C9 (confirmed): a root path that is itself a regular file is
returned unconditionally, while every file reached by recursing into a
directory survives exactly the extension check — absent list accepts
all, and a present list (lower-cased by `walkPaths`) must contain the
file's lower-cased extension. -/
theorem walkPath_extension_filter :
    (∀ (exts : Option (List String)) (p : String),
      walkPath exts true (FSNode.file p) = [p]) ∧
    (∀ (exts : Option (List String)) (b : Bool) (name : String) (children : List FSNode),
      walkPath exts b (FSNode.dir name children) =
        (filesInList children).filter (extensionsInclude exts)) ∧
    (∀ (p : String), extensionsInclude none p = true) ∧
    (∀ (l : List String) (p : String),
      extensionsInclude (some (l.map jsToLower)) p = true ↔
        ∃ e ∈ l, jsToLower e = jsToLower (stripDot (extnameOf p))) := by
  refine ⟨?_, ?_, ?_, ?_⟩
  · intro exts p; rfl
  · intro exts b name children
    simp only [walkPath]
    exact walkPathList_eq_filter exts children
  · intro p; rfl
  · intro l p
    simp [extensionsInclude, List.elem_iff, List.mem_map, eq_comm]

/-- Claim C10 (confirmed): on an empty input `layoutList` still emits one
row: `width` null cells (64 with the default options), and no tiles. -/
theorem layoutList_empty_input :
    (∀ options : Option LayoutOpts,
      (layoutList [] options).tileset =
        [List.replicate ((options.bind (fun o => o.width)).getD 64) none] ∧
      (layoutList [] options).tiles = []) ∧
    (layoutList [] none).tileset = [List.replicate 64 none] := by
  constructor
  · intro options
    constructor
    · simp [layoutList, layoutListGo, listRowCells, listRowTiles]
    · simp [layoutList, layoutListGo, listRowCells, listRowTiles]
  · rfl

end Tilemapper
